import Mathlib

/-!
Verification development for the ppt-image-inserter repository.

The development shallow-embeds the slide-duplication-and-image-replacement
core of the repository: the position resolver (position.py), the shape
mutator and slide lifecycle manager (slide_utils.py), and the replacement
workflow engine (workflow.py).

Modelling conventions:

* A presentation document is a pure value (`Pres`): an ordered list of
  slides (the slide-ordering list, each entry carrying its relationship id),
  the list of live slide relationship ids, and the slide canvas size in EMU.
* A filesystem (`FS`) maps paths to files; every repository function that
  takes a document path becomes a function over `FS`, and persisting is an
  explicit update of the path entry.  Raised Python exceptions become the
  `Err` sum type through `Except`.
* Lengths are exact: inches are rationals, the stored unit is the integer
  EMU at 914400 per inch (the fixed conversion factor of position.py), and
  the float-to-EMU conversion of the embedding layer is modelled by exact
  truncation (Python int) while the builtin round is modelled half-to-even.
* The python-pptx embedding layer is external to the repository; its
  operations are modelled at the abstraction level the repository code and
  its comments use them at (add_picture appends a picture shape, save
  rewrites the file), except where a finer model is load-bearing, which is
  documented at the definition concerned: add_slide clones the layout
  non-latent placeholders into the new slide (see `duplicate_slide`), and
  the placeholder_format probe raises for non-placeholders (see
  `hasattrPlaceholderFormat`).
-/

set_option maxHeartbeats 1600000

/-- Model of the Python builtin round at integer precision on exact
rationals: round half to even. -/
def pyRound (q : ℚ) : ℤ :=
  if q - ⌊q⌋ < 1/2 then ⌊q⌋
  else if (1 : ℚ)/2 < q - ⌊q⌋ then ⌊q⌋ + 1
  else if 2 ∣ ⌊q⌋ then ⌊q⌋ else ⌊q⌋ + 1

/-- Model of the Python builtin int on exact rationals: truncation toward
zero. -/
def pyInt (q : ℚ) : ℤ := if 0 ≤ q then ⌊q⌋ else -⌊-q⌋

/-- EMUS_PER_INCH from position.py: PowerPoint uses 914400 EMU per inch. -/
def EMUS_PER_INCH : ℚ := 914400

/-- cm_to_inches from position.py: divide by 2.54. -/
def cm_to_inches (cm : ℚ) : ℚ := cm / (254/100)

/-- Model of pptx.util.Inches: converts inches to the integer EMU length
unit by emu = int(inches * EMU_PER_INCH), truncating toward zero. -/
def Inches (inches : ℚ) : ℤ := pyInt (inches * 914400)

/-- Model of the Python builtin round(x, 1): round to the nearest tenth,
half to even. -/
def roundTenth (q : ℚ) : ℚ := (pyRound (q * 10) : ℚ) / 10

/-- Shape geometry as stored in the document: left, top, width, height in
integer EMU. -/
structure GeomEmu where
  left : ℤ
  top : ℤ
  width : ℤ
  height : ℤ
  deriving DecidableEq

/-- A position dict of the repository API: left, top, width, height in
inches. -/
structure Geometry where
  left : ℚ
  top : ℚ
  width : ℚ
  height : ℚ
  deriving DecidableEq

/-- The position_info construction of position.py: convert a stored EMU
geometry to inches by dividing each coordinate by EMUS_PER_INCH. -/
def position_info (g : GeomEmu) : Geometry :=
  ⟨(g.left : ℚ) / EMUS_PER_INCH, (g.top : ℚ) / EMUS_PER_INCH,
   (g.width : ℚ) / EMUS_PER_INCH, (g.height : ℚ) / EMUS_PER_INCH⟩

/-- Conversion applied by the workflow when inserting a picture: each inch
coordinate of a position dict goes through Inches. -/
def inGeomToEmu (p : Geometry) : GeomEmu :=
  ⟨Inches p.left, Inches p.top, Inches p.width, Inches p.height⟩

/-- A shape on a slide: a picture (with geometry and the optional descr
and title alt-text attributes of its cNvPr element), a text-frame-bearing
shape (placeholder or free textbox), or any other shape. -/
inductive Shape where
  | picture (geom : GeomEmu) (descr : Option String) (title : Option String)
  | textShape (isPlaceholder : Bool) (geom : GeomEmu) (text : String)
  | other
  deriving DecidableEq

/-- Model of shape.shape_type == MSO_SHAPE_TYPE.PICTURE. -/
def isPictureShape : Shape → Bool
  | .picture _ _ _ => true
  | _ => false

/-- Model of shape.has_text_frame. -/
def hasTextFrame : Shape → Bool
  | .textShape _ _ _ => true
  | _ => false

/-- The geometry of a shape when it is a picture. -/
def shapePic? : Shape → Option GeomEmu
  | .picture g _ _ => some g
  | _ => none

/-- The geometries of the picture shapes of a shape list, in shape-tree
order. -/
def pictureGeoms (shapes : List Shape) : List GeomEmu :=
  shapes.filterMap shapePic?

/-- A slide layout of the embedding layer: an identifier and the non-latent
placeholder shapes it carries.  The placeholders field holds exactly the
placeholder shapes that Slides.add_slide clones into a freshly added slide
(python-pptx clone_layout_placeholders; latent date, footer and
slide-number placeholders are never cloned and are not modelled). -/
structure Layout where
  id : Nat
  placeholders : List Shape
  deriving DecidableEq

/-- A slide: its entry in the slide ordering list carries a relationship id
(rId), the slide references a layout, and it owns an ordered shape tree. -/
structure Slide where
  rId : Nat
  layout : Layout
  shapes : List Shape
  deriving DecidableEq

/-- Placeholder slide used as the default of checked list lookups; it is
only read behind bounds checks. -/
def dummySlide : Slide := ⟨0, ⟨0, []⟩, []⟩

/-- An opened presentation: the slide ordering list, the live slide
relationship ids of the presentation part, the slide canvas size in EMU,
and a counter minting fresh relationship ids. -/
structure Pres where
  slides : List Slide
  rels : List Nat
  slideWidth : ℤ
  slideHeight : ℤ
  nextRId : Nat
  deriving DecidableEq

/-- A file on disk: a presentation package or an image file. -/
inductive File where
  | pptx (prs : Pres)
  | image
  deriving DecidableEq

/-- The filesystem state: path-to-file entries plus the log of snapshots
taken by the backup collaborator (each entry records the path and the
on-disk document that was backed up). -/
structure FS where
  files : List (String × File)
  backupLog : List (String × Pres)
  deriving DecidableEq

/-- Look a path up in the file table. -/
def findFile : List (String × File) → String → Option File
  | [], _ => none
  | (k, v) :: rest, p => if k = p then some v else findFile rest p

/-- Overwrite (or create) the file at a path. -/
def updateFile : List (String × File) → String → File → List (String × File)
  | [], p, f => [(p, f)]
  | (k, v) :: rest, p, f => if k = p then (p, f) :: rest else (k, v) :: updateFile rest p f

/-- Model of prs.save(ppt_path): rewrite the document at the path. -/
def FS.save (fs : FS) (p : String) (prs : Pres) : FS :=
  { fs with files := updateFile fs.files p (.pptx prs) }

/-- Model of os.path.exists. -/
def pathExists (fs : FS) (p : String) : Bool := (findFile fs.files p).isSome

/-- Payloads of the ValueError exceptions raised by the core. -/
inductive VErr where
  | noPictures (slide_index : ℤ)
  | noPlaceholders (slide_index : ℤ)
  | countMismatch (numImages numPositions : Nat)
  deriving DecidableEq

/-- The exceptions raised by the core: FileNotFoundError, IndexError,
a load failure on a non-presentation file, and ValueError. -/
inductive Err where
  | fileNotFound (path : String)
  | indexError
  | corrupt (path : String)
  | valueError (v : VErr)
  deriving DecidableEq

/-- Whether an error is the file-missing error (the NotFound category of
the specification error taxonomy). -/
def Err.isFileMissing : Err → Bool
  | .fileNotFound _ => true
  | _ => false

/-- Model of Presentation(ppt_path): load the document at the path. -/
def loadPres (fs : FS) (p : String) : Except Err Pres :=
  match findFile fs.files p with
  | some (.pptx prs) => .ok prs
  | some .image => .error (.corrupt p)
  | none => .error (.fileNotFound p)

/-- get_image_position from position.py: existence check, load, slide index
bounds check, collect the picture shapes in shape-tree order, ValueError
when there are none, picture index bounds check, then convert the indexed
geometry to inches. -/
def get_image_position (fs : FS) (ppt_path : String) (slide_index : ℤ)
    (image_index : ℤ) : Except Err Geometry :=
  if !(pathExists fs ppt_path) then .error (.fileNotFound ppt_path)
  else
    match loadPres fs ppt_path with
    | .error e => .error e
    | .ok prs =>
      if slide_index < 0 ∨ (prs.slides.length : ℤ) ≤ slide_index then .error .indexError
      else
        let slide := prs.slides.getD slide_index.toNat dummySlide
        let pictures := pictureGeoms slide.shapes
        if pictures.isEmpty then .error (.valueError (.noPictures slide_index))
        else if image_index < 0 ∨ (pictures.length : ℤ) ≤ image_index then .error .indexError
        else .ok (position_info (pictures.getD image_index.toNat ⟨0, 0, 0, 0⟩))

/-- The reading-order comparison of get_all_image_positions: the Python
sort key is the pair (round(top, 1), round(left, 1)) compared
lexicographically. -/
def posLe (a b : Geometry) : Prop :=
  roundTenth a.top < roundTenth b.top ∨
    (roundTenth a.top = roundTenth b.top ∧ roundTenth a.left ≤ roundTenth b.left)

instance posLe.dec (a b : Geometry) : Decidable (posLe a b) :=
  inferInstanceAs (Decidable (_ ∨ _))

/-- Boolean form of the reading-order comparison, for the sort. -/
def posLeB (a b : Geometry) : Bool := decide (posLe a b)

/-- get_all_image_positions from position.py: existence check, load, slide
index bounds check, convert every picture geometry to inches in shape-tree
order, then stable-sort by (round(top, 1), round(left, 1)).  A slide with
no pictures yields the empty list. -/
def get_all_image_positions (fs : FS) (ppt_path : String) (slide_index : ℤ) :
    Except Err (List Geometry) :=
  if !(pathExists fs ppt_path) then .error (.fileNotFound ppt_path)
  else
    match loadPres fs ppt_path with
    | .error e => .error e
    | .ok prs =>
      if slide_index < 0 ∨ (prs.slides.length : ℤ) ≤ slide_index then .error .indexError
      else
        let slide := prs.slides.getD slide_index.toNat dummySlide
        let positions := (pictureGeoms slide.shapes).map position_info
        .ok (positions.mergeSort posLeB)

/-- duplicate_slide from slide_utils.py: bounds-check the index, then call
the embedding layer add_slide with the source slide layout — add_slide
appends a new slide referencing that layout, registers a fresh slide
relationship, and clones the layout non-latent placeholder shapes into the
new slide (python-pptx Slides.add_slide calls clone_layout_placeholders) —
then deep-copy every source shape element into the new slide shape tree in
order, each appended at the end (insert_element_before the trailing
extLst), so the copies land after the cloned placeholders.  Shape values
are immutable here, so the copied elements are the source shapes
themselves. -/
def duplicate_slide (prs : Pres) (slide_index : ℤ) : Except Err Pres :=
  if slide_index < 0 ∨ (prs.slides.length : ℤ) ≤ slide_index then .error .indexError
  else
    let source_slide := prs.slides.getD slide_index.toNat dummySlide
    let blank_slide_layout := source_slide.layout
    .ok { prs with
          slides := prs.slides ++
            [{ rId := prs.nextRId, layout := blank_slide_layout,
               shapes := blank_slide_layout.placeholders ++ source_slide.shapes }],
          rels := prs.rels ++ [prs.nextRId],
          nextRId := prs.nextRId + 1 }

/-- remove_pictures_from_slide from slide_utils.py: detach every picture
shape from the tree (in this model every shape has a parent, so none is
skipped) and return the slide with the number removed. -/
def remove_pictures_from_slide (slide : Slide) : Slide × Nat :=
  ({ slide with shapes := slide.shapes.filter fun sh => !isPictureShape sh },
   (slide.shapes.filter fun sh => isPictureShape sh).length)

/-- remove_all_text_from_slide from slide_utils.py: detach every shape that
has a text frame and is not a picture, returning the count removed. -/
def remove_all_text_from_slide (slide : Slide) : Slide × Nat :=
  ({ slide with
     shapes := slide.shapes.filter fun sh => !(hasTextFrame sh && !isPictureShape sh) },
   (slide.shapes.filter fun sh => hasTextFrame sh && !isPictureShape sh).length)

/-- backup_presentation from backup.py, abstracted to what delete_slide
relies on: it reads the file currently on disk at the path and records a
snapshot of it (the category directories and time thresholds are not
modelled; the log keeps every snapshot taken). -/
def backup_presentation (fs : FS) (ppt_path : String) : FS :=
  match findFile fs.files ppt_path with
  | some (.pptx prs) => { fs with backupLog := fs.backupLog ++ [(ppt_path, prs)] }
  | _ => fs

/-- delete_slide from slide_utils.py: existence check, load, slide index
bounds check, back up the current on-disk file, then drop the slide
relationship (drop_rel on the rId read from the ordering list) and delete
the ordering-list entry, and persist. -/
def delete_slide (fs : FS) (ppt_path : String) (slide_index : ℤ) : Except Err FS :=
  if !(pathExists fs ppt_path) then .error (.fileNotFound ppt_path)
  else
    match loadPres fs ppt_path with
    | .error e => .error e
    | .ok prs =>
      if slide_index < 0 ∨ (prs.slides.length : ℤ) ≤ slide_index then .error .indexError
      else
        let fs1 := backup_presentation fs ppt_path
        let rId := (prs.slides.getD slide_index.toNat dummySlide).rId
        let prs1 := { prs with
                      slides := prs.slides.eraseIdx slide_index.toNat,
                      rels := prs.rels.erase rId }
        .ok (fs1.save ppt_path prs1)

/-- Model of os.path.basename: the component after the last slash. -/
def basename (p : String) : String := (p.splitOn "/").getLastD p

/-- Model of the nested helper _rel of _add_text_label in workflow.py: when
a base directory is given (truthy) and the path is absolute, show the path
relative to the base directory; otherwise show it verbatim.  The
os.path.relpath call is abstracted to stripping the base-directory prefix
when the path lies under it. -/
def _rel (base_dir : Option String) (p : String) : String :=
  match base_dir with
  | none => p
  | some b =>
    if b ≠ "" && p.startsWith "/" then
      if p.startsWith (b ++ "/") then p.drop (b ++ "/").length else p
    else p

/-- The text block composed by _add_text_label: one line per image path. -/
def label_text (image_paths : List String) (base_dir : Option String) : String :=
  String.intercalate "\n" (image_paths.map (_rel base_dir))

/-- LABEL_MARGIN from workflow.py (inches). -/
def LABEL_MARGIN : ℚ := 3/10

/-- LABEL_WIDTH from workflow.py (inches). -/
def LABEL_WIDTH : ℚ := 5

/-- _add_text_label from workflow.py: compute a per-line height budget,
place one textbox at the bottom-right corner of the actual slide canvas,
and fill it with the composed label text.  Font styling is not modelled. -/
def _add_text_label (slide : Slide) (image_paths : List String)
    (slide_width_inches slide_height_inches : ℚ) (base_dir : Option String) : Slide :=
  let n : ℚ := image_paths.length
  let height := n * (13/100) + 1/10
  let left := slide_width_inches - LABEL_MARGIN - LABEL_WIDTH
  let top := slide_height_inches - LABEL_MARGIN - height
  { slide with shapes := slide.shapes ++
      [.textShape false ⟨Inches left, Inches top, Inches LABEL_WIDTH, Inches height⟩
        (label_text image_paths base_dir)] }

/-- The add_picture-plus-metadata step of the workflow: append a picture
shape at the given position (each inch coordinate through Inches) and,
when requested, set the descr attribute to the full image path and the
title attribute to its basename on the cNvPr of the new picture. -/
def addPictureWithMeta (slide : Slide) (img_path : String) (pos : Geometry)
    (store_metadata : Bool) : Slide :=
  { slide with shapes := slide.shapes ++
      [ if store_metadata then
          Shape.picture (inGeomToEmu pos) (some img_path) (some (basename img_path))
        else
          Shape.picture (inGeomToEmu pos) none none ] }

/-- The first entry of a path list that does not exist on disk, if any;
the image pre-validation loop of the workflow raises at this entry. -/
def firstMissing (files : List (String × File)) : List String → Option String
  | [] => none
  | p :: rest => if (findFile files p).isNone then some p else firstMissing files rest

/-- copy_slide_replace_images from workflow.py: validate that the document
and every image exist; resolve positions (auto-detect from the template via
get_all_image_positions when not supplied, ValueError when the template has
no pictures); ValueError naming both counts when the image and position
counts differ; duplicate the template slide (appended at the end, new index
is the old slide count); strip all pictures and all text from the new
slide; insert each image at its position in input order, stamping alt-text
metadata when requested; optionally compose a bottom-right label; persist;
return the new slide index. -/
def copy_slide_replace_images (fs : FS) (ppt_path : String) (source_slide_index : ℤ)
    (new_image_paths : List String) (positions : Option (List Geometry))
    (store_metadata add_label : Bool) (base_dir : Option String) :
    Except Err (FS × ℤ) :=
  if !(pathExists fs ppt_path) then .error (.fileNotFound ppt_path)
  else
    match firstMissing fs.files new_image_paths with
    | some img => .error (.fileNotFound img)
    | none =>
      match loadPres fs ppt_path with
      | .error e => .error e
      | .ok prs =>
        let resolved : Except Err (List Geometry) :=
          match positions with
          | some ps => .ok ps
          | none =>
            match get_all_image_positions fs ppt_path source_slide_index with
            | .error e => .error e
            | .ok ps =>
              if ps.isEmpty then .error (.valueError (.noPlaceholders source_slide_index))
              else .ok ps
        match resolved with
        | .error e => .error e
        | .ok ps =>
          if new_image_paths.length ≠ ps.length then
            .error (.valueError (.countMismatch new_image_paths.length ps.length))
          else
            match duplicate_slide prs source_slide_index with
            | .error e => .error e
            | .ok prs1 =>
              let new_slide_index : ℤ := (prs1.slides.length : ℤ) - 1
              let s0 := prs1.slides.getLastD dummySlide
              let s1 := (remove_pictures_from_slide s0).1
              let s2 := (remove_all_text_from_slide s1).1
              let s3 := (new_image_paths.zip ps).foldl
                (fun sl ip => addPictureWithMeta sl ip.1 ip.2 store_metadata) s2
              let s4 := if add_label then
                  _add_text_label s3 new_image_paths
                    ((prs1.slideWidth : ℚ) / EMUS_PER_INCH)
                    ((prs1.slideHeight : ℚ) / EMUS_PER_INCH) base_dir
                else s3
              let prs2 := { prs1 with slides := prs1.slides.dropLast ++ [s4] }
              .ok (fs.save ppt_path prs2, new_slide_index)

/-- copy_slide_replace_image from workflow.py: the single-image wrapper.
It wraps the image into a one-element list, wraps the position into a
one-element list when supplied, and delegates to
copy_slide_replace_images. -/
def copy_slide_replace_image (fs : FS) (ppt_path : String) (source_slide_index : ℤ)
    (new_image_path : String) (position : Option Geometry)
    (store_metadata add_label : Bool) (base_dir : Option String) :
    Except Err (FS × ℤ) :=
  let positions : Option (List Geometry) :=
    match position with
    | some p => some [p]
    | none => none
  copy_slide_replace_images fs ppt_path source_slide_index [new_image_path] positions
    store_metadata add_label base_dir

/-- Outcome of a Python hasattr probe: either the attribute access produced
a value, or it raised an exception other than AttributeError, which hasattr
propagates. -/
inductive AttrProbe where
  | value (b : Bool)
  | raisesValueError
  deriving DecidableEq

/-- Model of hasattr(shape, "placeholder_format") under the python-pptx
embedding layer.  BaseShape defines placeholder_format as a class-level
property on every shape, documented to raise ValueError on access when the
shape is not a placeholder (placeholder subclasses override it to return a
value).  The Python hasattr builtin converts only AttributeError to False
and propagates every other exception, so the probe yields True for
placeholder shapes and raises ValueError for every other shape; it never
yields False. -/
def hasattrPlaceholderFormat (sh : Shape) : AttrProbe :=
  match sh with
  | .textShape true _ _ => .value true
  | _ => .raisesValueError

/-- One iteration of the label-removal loop of
replace_image_on_existing_slide: for a text-frame shape, probe
hasattr(shape, "placeholder_format"); detach the shape when the probe
yields False; a raised exception is swallowed by the enclosing
try/except and the shape is left untouched.  The accumulator carries the
shapes kept so far and the count removed. -/
def removeTextboxStep (acc : List Shape × Nat) (sh : Shape) : List Shape × Nat :=
  if hasTextFrame sh then
    match hasattrPlaceholderFormat sh with
    | .value b => if !b then (acc.1, acc.2 + 1) else (acc.1 ++ [sh], acc.2)
    | .raisesValueError => (acc.1 ++ [sh], acc.2)
  else (acc.1 ++ [sh], acc.2)

/-- The label-removal loop of replace_image_on_existing_slide over the
slide shape list. -/
def removeTextboxLabels (shapes : List Shape) : List Shape × Nat :=
  shapes.foldl removeTextboxStep ([], 0)

/-- replace_image_on_existing_slide from workflow.py: existence checks,
load, slide index bounds check, capture the geometry of the first picture
via get_image_position (ValueError when the slide has no pictures), remove
all pictures, run the best-effort textbox-label-removal loop, insert the
new image at the captured geometry, optionally stamp metadata and add a
label, persist. -/
def replace_image_on_existing_slide (fs : FS) (ppt_path : String) (slide_index : ℤ)
    (new_image_path : String) (store_metadata add_label : Bool) : Except Err FS :=
  if !(pathExists fs ppt_path) then .error (.fileNotFound ppt_path)
  else if !(pathExists fs new_image_path) then .error (.fileNotFound new_image_path)
  else
    match loadPres fs ppt_path with
    | .error e => .error e
    | .ok prs =>
      if slide_index < 0 ∨ (prs.slides.length : ℤ) ≤ slide_index then .error .indexError
      else
        match get_image_position fs ppt_path slide_index 0 with
        | .error e => .error e
        | .ok position =>
          let slide := prs.slides.getD slide_index.toNat dummySlide
          let slide1 := (remove_pictures_from_slide slide).1
          let slide2 : Slide := { slide1 with shapes := (removeTextboxLabels slide1.shapes).1 }
          let slide3 := addPictureWithMeta slide2 new_image_path position store_metadata
          let slide4 := if add_label then
              _add_text_label slide3 [new_image_path]
                ((prs.slideWidth : ℚ) / EMUS_PER_INCH)
                ((prs.slideHeight : ℚ) / EMUS_PER_INCH) none
            else slide3
          .ok (fs.save ppt_path
            { prs with slides := prs.slides.set slide_index.toNat slide4 })

/-! ### Helper lemmas -/

theorem pyRound_intCast (n : ℤ) : pyRound (n : ℚ) = n := by
  unfold pyRound
  rw [Int.floor_intCast]
  norm_num

theorem abs_sub_pyRound (q : ℚ) : |q - (pyRound q : ℚ)| ≤ 1/2 := by
  unfold pyRound
  have h0 : (0:ℚ) ≤ q - ⌊q⌋ := by
    have := Int.floor_le q
    linarith
  have h1 : q - ⌊q⌋ < 1 := by
    have := Int.lt_floor_add_one q
    linarith
  split_ifs with hlt hgt hdvd
  · rw [abs_le]
    constructor <;> linarith
  · rw [abs_le]
    constructor <;> push_cast <;> linarith
  · rw [abs_le]
    constructor <;> linarith
  · rw [abs_le]
    constructor <;> push_cast <;> linarith

theorem pyInt_intCast (n : ℤ) : pyInt (n : ℚ) = n := by
  unfold pyInt
  split_ifs with h
  · exact Int.floor_intCast n
  · rw [← Int.cast_neg, Int.floor_intCast]
    ring

theorem abs_sub_pyInt (q : ℚ) : |q - (pyInt q : ℚ)| < 1 := by
  unfold pyInt
  split_ifs with h
  · have h1 := Int.floor_le q
    have h2 := Int.lt_floor_add_one q
    rw [abs_lt]
    constructor <;> linarith
  · have h1 := Int.floor_le (-q)
    have h2 := Int.lt_floor_add_one (-q)
    rw [abs_lt]
    constructor <;> push_cast <;> linarith

theorem posLeB_trans (a b c : Geometry) (hab : posLeB a b = true)
    (hbc : posLeB b c = true) : posLeB a c = true := by
  simp only [posLeB, decide_eq_true_eq, posLe] at *
  rcases hab with h | ⟨h1, h2⟩ <;> rcases hbc with h' | ⟨h1', h2'⟩
  · exact Or.inl (lt_trans h h')
  · exact Or.inl (h1' ▸ h)
  · exact Or.inl (h1 ▸ h')
  · exact Or.inr ⟨h1.trans h1', le_trans h2 h2'⟩

theorem posLeB_total (a b : Geometry) : (posLeB a b || posLeB b a) = true := by
  simp only [posLeB, Bool.or_eq_true, decide_eq_true_eq, posLe]
  rcases lt_trichotomy (roundTenth a.top) (roundTenth b.top) with h | h | h
  · exact Or.inl (Or.inl h)
  · rcases le_total (roundTenth a.left) (roundTenth b.left) with h2 | h2
    · exact Or.inl (Or.inr ⟨h, h2⟩)
    · exact Or.inr (Or.inr ⟨h.symm, h2⟩)
  · exact Or.inr (Or.inl h)

theorem mergeSort_pair (a b : Geometry) :
    List.mergeSort [a, b] posLeB = if posLeB a b then [a, b] else [b, a] := by
  simp [List.mergeSort, List.merge]

theorem firstMissing_eq_none (files : List (String × File)) (l : List String)
    (h : ∀ p ∈ l, (findFile files p).isSome) : firstMissing files l = none := by
  induction l with
  | nil => rfl
  | cons p rest ih =>
    have hp := h p (List.mem_cons_self p rest)
    have hp' : (findFile files p).isNone = false := by
      cases hfp : findFile files p
      · rw [hfp] at hp
        simp at hp
      · rfl
    unfold firstMissing
    rw [hp']
    simp only [Bool.false_eq_true, if_false]
    exact ih fun q hq => h q (List.mem_cons_of_mem _ hq)

theorem pictureGeoms_append (l l' : List Shape) :
    pictureGeoms (l ++ l') = pictureGeoms l ++ pictureGeoms l' :=
  List.filterMap_append l l' shapePic?

theorem pictureGeoms_remove_pictures (l : List Shape) :
    pictureGeoms (l.filter fun sh => !isPictureShape sh) = [] := by
  induction l with
  | nil => rfl
  | cons sh rest ih =>
    cases sh <;>
      simp [pictureGeoms, shapePic?, isPictureShape, List.filter_cons,
        List.filterMap_cons] at * <;>
      exact ih

theorem pictureGeoms_filter_of_nil (l : List Shape) (q : Shape → Bool)
    (h : pictureGeoms l = []) : pictureGeoms (l.filter q) = [] := by
  have hsub : (List.filter q l).Sublist l := List.filter_sublist l
  have := hsub.filterMap shapePic?
  rw [show List.filterMap shapePic? l = pictureGeoms l from rfl] at this
  rw [h] at this
  exact List.sublist_nil.mp this

theorem pictureGeoms_foldl_add (sm : Bool) (l : List (String × Geometry)) (s : Slide) :
    pictureGeoms ((l.foldl (fun sl ip => addPictureWithMeta sl ip.1 ip.2 sm) s).shapes)
      = pictureGeoms s.shapes ++ l.map fun ip => inGeomToEmu ip.2 := by
  induction l generalizing s with
  | nil => simp
  | cons ip rest ih =>
    rw [List.foldl_cons, ih]
    cases sm <;>
      simp [addPictureWithMeta, pictureGeoms, shapePic?, List.filterMap_append]

theorem findFile_updateFile_self (files : List (String × File)) (p : String) (f : File) :
    findFile (updateFile files p f) p = some f := by
  induction files with
  | nil => simp [updateFile, findFile]
  | cons kv rest ih =>
    obtain ⟨k, v⟩ := kv
    by_cases h : k = p <;> simp [updateFile, findFile, h, ih]

theorem delete_slide_ok (fs : FS) (ppt_path : String) (prs : Pres) (i : ℤ)
    (hppt : findFile fs.files ppt_path = some (.pptx prs))
    (h0 : 0 ≤ i) (hl : i < (prs.slides.length : ℤ)) :
    delete_slide fs ppt_path i =
      .ok { files := updateFile fs.files ppt_path (.pptx
              { prs with
                slides := prs.slides.eraseIdx i.toNat,
                rels := prs.rels.erase ((prs.slides.getD i.toNat dummySlide).rId) }),
            backupLog := fs.backupLog ++ [(ppt_path, prs)] } := by
  have hex : pathExists fs ppt_path = true := by simp [pathExists, hppt]
  have hload : loadPres fs ppt_path = .ok prs := by simp [loadPres, hppt]
  have hidx : ¬(i < 0 ∨ (prs.slides.length : ℤ) ≤ i) := by omega
  simp [delete_slide, hex, hload, hidx, backup_presentation, hppt, FS.save]

theorem delete_slide_err (fs : FS) (ppt_path : String) (prs : Pres) (i : ℤ)
    (hppt : findFile fs.files ppt_path = some (.pptx prs))
    (hidx : i < 0 ∨ (prs.slides.length : ℤ) ≤ i) :
    delete_slide fs ppt_path i = .error .indexError := by
  have hex : pathExists fs ppt_path = true := by simp [pathExists, hppt]
  have hload : loadPres fs ppt_path = .ok prs := by simp [loadPres, hppt]
  simp [delete_slide, hex, hload, hidx]

/-! ### Claim theorems -/

/-- C8: copy_slide_replace_image is the single-image specialization of
copy_slide_replace_images: for every input it returns the same result, and
hence produces the same document state, as the plural form applied to the
one-element image list and the one-element position list (or no positions
when none was supplied).  The singular form is not a separate code path. -/
theorem C8_singular_is_plural_specialization (fs : FS) (ppt_path : String)
    (source_slide_index : ℤ) (new_image_path : String) (position : Option Geometry)
    (store_metadata add_label : Bool) (base_dir : Option String) :
    copy_slide_replace_image fs ppt_path source_slide_index new_image_path position
        store_metadata add_label base_dir =
      copy_slide_replace_images fs ppt_path source_slide_index [new_image_path]
        (position.map fun p => [p]) store_metadata add_label base_dir := by
  cases position <;> rfl

/-- Concrete layout of the C2 scenario: it carries one non-latent title
placeholder, which add_slide clones into every slide created from it. -/
def layC2 : Layout := ⟨5, [.textShape true ⟨0, 0, 914400, 457200⟩ ""]⟩

/-- Concrete one-slide presentation of the C2 scenario: the slide was built
on layC2 and holds a single non-placeholder shape. -/
def presC2 : Pres := ⟨[⟨1, layC2, [Shape.other]⟩], [1], 9144000, 6858000, 2⟩

/-- C2 counterexample: duplicating the slide of presC2 appends a slide
whose shape tree is the cloned layout placeholder followed by the copied
source shape — two shapes against the source slide's one — so the claimed
exact equality of shape count and order fails at this input. -/
theorem C2_counterexample :
    duplicate_slide presC2 0 =
      .ok ⟨[⟨1, layC2, [Shape.other]⟩,
            ⟨2, layC2, [.textShape true ⟨0, 0, 914400, 457200⟩ "", Shape.other]⟩],
           [1, 2], 9144000, 6858000, 3⟩ ∧
    ([.textShape true ⟨0, 0, 914400, 457200⟩ "", Shape.other] : List Shape).length ≠
      ([Shape.other] : List Shape).length :=
  ⟨rfl, by decide⟩

/-- C2 (amended): for every valid slide index, duplicate_slide appends
exactly one new slide at the end of the slide ordering; the new slide
references the source slide layout, and its shape tree is the layout
cloned non-latent placeholders followed by copies of the source slide
shapes in their original order with original geometries.  In particular,
when the source layout has no placeholders to clone, the new slide shape
count, shape order and each shape geometry exactly equal the source
slide's. -/
theorem C2_duplicate_appends_placeholders_then_copy (prs : Pres) (i : ℤ)
    (h0 : 0 ≤ i) (hl : i < (prs.slides.length : ℤ)) :
    ∃ prs1 newSlide, duplicate_slide prs i = .ok prs1 ∧
      prs1.slides = prs.slides ++ [newSlide] ∧
      newSlide.layout = (prs.slides.getD i.toNat dummySlide).layout ∧
      newSlide.shapes = (prs.slides.getD i.toNat dummySlide).layout.placeholders ++
        (prs.slides.getD i.toNat dummySlide).shapes ∧
      ((prs.slides.getD i.toNat dummySlide).layout.placeholders = [] →
        newSlide.shapes = (prs.slides.getD i.toNat dummySlide).shapes) := by
  refine ⟨{ prs with
            slides := prs.slides ++ [⟨prs.nextRId,
              (prs.slides.getD i.toNat dummySlide).layout,
              (prs.slides.getD i.toNat dummySlide).layout.placeholders ++
                (prs.slides.getD i.toNat dummySlide).shapes⟩],
            rels := prs.rels ++ [prs.nextRId],
            nextRId := prs.nextRId + 1 },
          ⟨prs.nextRId, (prs.slides.getD i.toNat dummySlide).layout,
            (prs.slides.getD i.toNat dummySlide).layout.placeholders ++
              (prs.slides.getD i.toNat dummySlide).shapes⟩,
          ?_, rfl, rfl, rfl, ?_⟩
  · unfold duplicate_slide
    rw [if_neg (by omega)]
  · intro h
    show (prs.slides.getD i.toNat dummySlide).layout.placeholders ++
        (prs.slides.getD i.toNat dummySlide).shapes =
      (prs.slides.getD i.toNat dummySlide).shapes
    rw [h, List.nil_append]

/-- Witness for the amended C2 at presC2, whose layout does carry a
placeholder. -/
theorem C2_duplicate_appends_placeholders_then_copy_witness :
    ∃ prs1 newSlide, duplicate_slide presC2 0 = .ok prs1 ∧
      prs1.slides = presC2.slides ++ [newSlide] ∧
      newSlide.layout = (presC2.slides.getD (0 : ℤ).toNat dummySlide).layout ∧
      newSlide.shapes =
        (presC2.slides.getD (0 : ℤ).toNat dummySlide).layout.placeholders ++
          (presC2.slides.getD (0 : ℤ).toNat dummySlide).shapes ∧
      ((presC2.slides.getD (0 : ℤ).toNat dummySlide).layout.placeholders = [] →
        newSlide.shapes = (presC2.slides.getD (0 : ℤ).toNat dummySlide).shapes) :=
  C2_duplicate_appends_placeholders_then_copy presC2 0 (by decide) (by decide)

/-- C7: delete_slide validates the slide index (IndexError when out of
range, nothing persisted), backs up the current on-disk document before the
mutation is persisted, then removes exactly the addressed slide
relationship entry and its slide-ordering-list entry and persists; as a
consequence, deleting indices 4, then 2, then 1 from a six-slide deck
leaves exactly the slides originally at indices 0, 3 and 5, in their
original relative order. -/
theorem C7_delete_slide_contract :
    (∀ (fs : FS) (ppt_path : String) (prs : Pres) (i : ℤ),
      findFile fs.files ppt_path = some (.pptx prs) →
      0 ≤ i → i < (prs.slides.length : ℤ) →
      delete_slide fs ppt_path i =
        .ok { files := updateFile fs.files ppt_path (.pptx
                { prs with
                  slides := prs.slides.eraseIdx i.toNat,
                  rels := prs.rels.erase ((prs.slides.getD i.toNat dummySlide).rId) }),
              backupLog := fs.backupLog ++ [(ppt_path, prs)] }) ∧
    (∀ (fs : FS) (ppt_path : String) (prs : Pres) (i : ℤ),
      findFile fs.files ppt_path = some (.pptx prs) →
      (i < 0 ∨ (prs.slides.length : ℤ) ≤ i) →
      delete_slide fs ppt_path i = .error .indexError) ∧
    (∀ (s0 s1 s2 s3 s4 s5 : Slide) (rels : List Nat) (w h : ℤ) (nr : Nat)
        (bl : List (String × Pres)),
      ∃ fs1 fs2 fs3 prs3,
        delete_slide ⟨[("d.pptx", .pptx ⟨[s0, s1, s2, s3, s4, s5], rels, w, h, nr⟩)], bl⟩
            "d.pptx" 4 = .ok fs1 ∧
        delete_slide fs1 "d.pptx" 2 = .ok fs2 ∧
        delete_slide fs2 "d.pptx" 1 = .ok fs3 ∧
        findFile fs3.files "d.pptx" = some (.pptx prs3) ∧
        prs3.slides = [s0, s3, s5]) := by
  refine ⟨delete_slide_ok, delete_slide_err, ?_⟩
  intro s0 s1 s2 s3 s4 s5 rels w h nr bl
  refine ⟨⟨[("d.pptx", .pptx ⟨[s0, s1, s2, s3, s5], rels.erase s4.rId, w, h, nr⟩)],
            bl ++ [("d.pptx", ⟨[s0, s1, s2, s3, s4, s5], rels, w, h, nr⟩)]⟩,
          ⟨[("d.pptx", .pptx ⟨[s0, s1, s3, s5], (rels.erase s4.rId).erase s2.rId, w, h, nr⟩)],
            bl ++ [("d.pptx", ⟨[s0, s1, s2, s3, s4, s5], rels, w, h, nr⟩)] ++
              [("d.pptx", ⟨[s0, s1, s2, s3, s5], rels.erase s4.rId, w, h, nr⟩)]⟩,
          ⟨[("d.pptx", .pptx ⟨[s0, s3, s5],
              ((rels.erase s4.rId).erase s2.rId).erase s1.rId, w, h, nr⟩)],
            bl ++ [("d.pptx", ⟨[s0, s1, s2, s3, s4, s5], rels, w, h, nr⟩)] ++
              [("d.pptx", ⟨[s0, s1, s2, s3, s5], rels.erase s4.rId, w, h, nr⟩)] ++
              [("d.pptx", ⟨[s0, s1, s3, s5], (rels.erase s4.rId).erase s2.rId, w, h, nr⟩)]⟩,
          ⟨[s0, s3, s5], ((rels.erase s4.rId).erase s2.rId).erase s1.rId, w, h, nr⟩,
          ?_, ?_, ?_, rfl, rfl⟩
  · exact delete_slide_ok _ "d.pptx" ⟨[s0, s1, s2, s3, s4, s5], rels, w, h, nr⟩ 4
      rfl (by norm_num) (by norm_num)
  · exact delete_slide_ok _ "d.pptx" ⟨[s0, s1, s2, s3, s5], rels.erase s4.rId, w, h, nr⟩ 2
      rfl (by norm_num) (by norm_num)
  · exact delete_slide_ok _ "d.pptx" ⟨[s0, s1, s3, s5], (rels.erase s4.rId).erase s2.rId, w, h, nr⟩ 1
      rfl (by norm_num) (by norm_num)

/-- Witness for C7: a one-slide deck delete, an out-of-range delete, and
the six-slide 4-2-1 descending-order deletion scenario, all concrete. -/
theorem C7_delete_slide_contract_witness :
    delete_slide ⟨[("w.pptx", .pptx ⟨[⟨3, ⟨0, []⟩, []⟩], [3], 1, 1, 4⟩)], []⟩ "w.pptx" 0 =
      .ok ⟨[("w.pptx", .pptx ⟨[], [], 1, 1, 4⟩)], [("w.pptx", ⟨[⟨3, ⟨0, []⟩, []⟩], [3], 1, 1, 4⟩)]⟩ ∧
    delete_slide ⟨[("w.pptx", .pptx ⟨[⟨3, ⟨0, []⟩, []⟩], [3], 1, 1, 4⟩)], []⟩ "w.pptx" 7 =
      .error .indexError ∧
    (∃ fs1 fs2 fs3 prs3,
      delete_slide ⟨[("d.pptx", .pptx ⟨[⟨1, ⟨0, []⟩, []⟩, ⟨2, ⟨0, []⟩, []⟩, ⟨3, ⟨0, []⟩, []⟩, ⟨4, ⟨0, []⟩, []⟩,
          ⟨5, ⟨0, []⟩, []⟩, ⟨6, ⟨0, []⟩, []⟩], [1, 2, 3, 4, 5, 6], 1, 1, 7⟩)], []⟩ "d.pptx" 4 = .ok fs1 ∧
      delete_slide fs1 "d.pptx" 2 = .ok fs2 ∧
      delete_slide fs2 "d.pptx" 1 = .ok fs3 ∧
      findFile fs3.files "d.pptx" = some (.pptx prs3) ∧
      prs3.slides = [⟨1, ⟨0, []⟩, []⟩, ⟨4, ⟨0, []⟩, []⟩, ⟨6, ⟨0, []⟩, []⟩]) := by
  refine ⟨?_, ?_, ?_⟩
  · exact C7_delete_slide_contract.1 ⟨[("w.pptx", .pptx ⟨[⟨3, ⟨0, []⟩, []⟩], [3], 1, 1, 4⟩)], []⟩
      "w.pptx" ⟨[⟨3, ⟨0, []⟩, []⟩], [3], 1, 1, 4⟩ 0 rfl (by norm_num) (by norm_num)
  · exact C7_delete_slide_contract.2.1 _ "w.pptx" ⟨[⟨3, ⟨0, []⟩, []⟩], [3], 1, 1, 4⟩ 7
      rfl (by norm_num)
  · exact C7_delete_slide_contract.2.2 ⟨1, ⟨0, []⟩, []⟩ ⟨2, ⟨0, []⟩, []⟩ ⟨3, ⟨0, []⟩, []⟩ ⟨4, ⟨0, []⟩, []⟩
      ⟨5, ⟨0, []⟩, []⟩ ⟨6, ⟨0, []⟩, []⟩ [1, 2, 3, 4, 5, 6] 1 1 7 []

/-- C6 (amended): for an existing presentation document, get_image_position
raises IndexError when slide_index is out of range; on an in-range slide
with no pictures it raises ValueError (the claim named the NotFound
category, but the specification taxonomy reserves NotFound for missing
files, and the code raises ValueError here); on an in-range slide with
pictures it raises IndexError when picture_index is out of range, and on
valid indices it returns the geometry of the Nth picture in
document-appearance order. -/
theorem C6_get_image_position_contract (fs : FS) (ppt_path : String) (i j : ℤ)
    (prs : Pres) (hppt : findFile fs.files ppt_path = some (.pptx prs)) :
    ((i < 0 ∨ (prs.slides.length : ℤ) ≤ i) →
      get_image_position fs ppt_path i j = .error .indexError) ∧
    (0 ≤ i → i < (prs.slides.length : ℤ) →
      pictureGeoms (prs.slides.getD i.toNat dummySlide).shapes = [] →
      get_image_position fs ppt_path i j = .error (.valueError (.noPictures i))) ∧
    (0 ≤ i → i < (prs.slides.length : ℤ) →
      pictureGeoms (prs.slides.getD i.toNat dummySlide).shapes ≠ [] →
      (j < 0 ∨ ((pictureGeoms (prs.slides.getD i.toNat dummySlide).shapes).length : ℤ) ≤ j) →
      get_image_position fs ppt_path i j = .error .indexError) ∧
    (0 ≤ i → i < (prs.slides.length : ℤ) →
      0 ≤ j → j < ((pictureGeoms (prs.slides.getD i.toNat dummySlide).shapes).length : ℤ) →
      get_image_position fs ppt_path i j =
        .ok (position_info
          ((pictureGeoms (prs.slides.getD i.toNat dummySlide).shapes).getD j.toNat
            ⟨0, 0, 0, 0⟩))) := by
  have hex : pathExists fs ppt_path = true := by simp [pathExists, hppt]
  have hload : loadPres fs ppt_path = .ok prs := by simp [loadPres, hppt]
  refine ⟨?_, ?_, ?_, ?_⟩
  · intro hidx
    simp [get_image_position, hex, hload, hidx]
  · intro h0 hl hnil
    have hidx : ¬(i < 0 ∨ (prs.slides.length : ℤ) ≤ i) := by omega
    rw [List.getD_eq_getElem?_getD] at hnil
    simp [get_image_position, hex, hload, hidx, hnil]
  · intro h0 hl hne hj
    have hidx : ¬(i < 0 ∨ (prs.slides.length : ℤ) ≤ i) := by omega
    rw [List.getD_eq_getElem?_getD] at hne hj
    simp [get_image_position, hex, hload, hidx, hne, hj]
  · intro h0 hl hj0 hjl
    have hidx : ¬(i < 0 ∨ (prs.slides.length : ℤ) ≤ i) := by omega
    have hne : pictureGeoms (prs.slides.getD i.toNat dummySlide).shapes ≠ [] := by
      intro h
      rw [h] at hjl
      simp at hjl
      omega
    have hjne : ¬(j < 0 ∨ ((pictureGeoms (prs.slides.getD i.toNat dummySlide).shapes).length : ℤ) ≤ j) := by
      omega
    rw [List.getD_eq_getElem?_getD] at hne hjne
    simp [get_image_position, hex, hload, hidx, hne, hjne]

/-- C6 counterexample: on an existing document whose addressed slide exists
but has no pictures, get_image_position raises ValueError, which is not in
the NotFound (file-missing) category the claim names for this case. -/
theorem C6_counterexample :
    get_image_position ⟨[("q.pptx", .pptx ⟨[⟨1, ⟨0, []⟩, [Shape.other]⟩], [1], 1, 1, 2⟩)], []⟩
        "q.pptx" 0 0 = .error (.valueError (.noPictures 0)) ∧
    (Err.valueError (.noPictures 0)).isFileMissing = false :=
  ⟨rfl, rfl⟩

/-- Concrete two-slide presentation used by the C6 witness: slide 0 has no
pictures, slide 1 has one picture. -/
def prsW6 : Pres :=
  ⟨[⟨1, ⟨0, []⟩, [Shape.other]⟩, ⟨2, ⟨0, []⟩, [.picture ⟨10, 20, 30, 40⟩ none none]⟩], [1, 2], 1, 1, 3⟩

/-- Concrete filesystem used by the C6 witness. -/
def fsW6 : FS := ⟨[("q.pptx", .pptx prsW6)], []⟩

/-- Witness for C6 covering all four contract cases at concrete inputs. -/
theorem C6_get_image_position_contract_witness :
    get_image_position fsW6 "q.pptx" 5 0 = .error .indexError ∧
    get_image_position fsW6 "q.pptx" 0 0 = .error (.valueError (.noPictures 0)) ∧
    get_image_position fsW6 "q.pptx" 1 3 = .error .indexError ∧
    get_image_position fsW6 "q.pptx" 1 0 = .ok (position_info ⟨10, 20, 30, 40⟩) := by
  refine ⟨?_, ?_, ?_, ?_⟩
  · exact (C6_get_image_position_contract fsW6 "q.pptx" 5 0 prsW6 rfl).1 (by norm_num [prsW6])
  · exact (C6_get_image_position_contract fsW6 "q.pptx" 0 0 prsW6 rfl).2.1
      (by norm_num) (by norm_num [prsW6]) rfl
  · exact (C6_get_image_position_contract fsW6 "q.pptx" 1 3 prsW6 rfl).2.2.1
      (by norm_num) (by norm_num [prsW6]) (by decide) (by decide)
  · exact (C6_get_image_position_contract fsW6 "q.pptx" 1 0 prsW6 rfl).2.2.2
      (by norm_num) (by norm_num [prsW6]) (by norm_num) (by decide)

/-- C1: when the presentation and every image file exist but the number of
image paths differs from the number of positions (supplied, or successfully
auto-detected from the template), copy_slide_replace_images raises the
ValueError naming both counts.  The failure precedes the duplication step,
and the function reports an error without returning any new filesystem
state, so nothing is persisted and the on-disk slide count is unchanged. -/
theorem C1_count_mismatch_fails_before_duplication (fs : FS) (ppt_path : String)
    (idx : ℤ) (imgs : List String) (positions : Option (List Geometry))
    (sm al : Bool) (bd : Option String) (prs : Pres) (n : Nat)
    (hppt : findFile fs.files ppt_path = some (.pptx prs))
    (himgs : ∀ p ∈ imgs, (findFile fs.files p).isSome)
    (hpos : (∃ ps, positions = some ps ∧ ps.length = n) ∨
            (positions = none ∧ ∃ l, get_all_image_positions fs ppt_path idx = .ok l ∧
              l ≠ [] ∧ l.length = n))
    (hne : imgs.length ≠ n) :
    copy_slide_replace_images fs ppt_path idx imgs positions sm al bd =
      .error (.valueError (.countMismatch imgs.length n)) := by
  have hex : pathExists fs ppt_path = true := by simp [pathExists, hppt]
  have hmiss : firstMissing fs.files imgs = none := firstMissing_eq_none _ _ himgs
  have hload : loadPres fs ppt_path = .ok prs := by simp [loadPres, hppt]
  rcases hpos with ⟨ps, hps, hlen⟩ | ⟨hnone, l, hl, hlne, hlen⟩
  · subst hps
    subst hlen
    simp [copy_slide_replace_images, hex, hmiss, hload, hne]
  · subst hnone
    subst hlen
    have hlE : l.isEmpty = false := by
      cases l
      · exact absurd rfl hlne
      · rfl
    simp [copy_slide_replace_images, hex, hmiss, hload, hl, hlE, hne]

/-- Concrete one-picture template presentation used by the C1 witness. -/
def prsW1 : Pres := ⟨[⟨1, ⟨0, []⟩, [.picture ⟨0, 0, 914400, 914400⟩ none none]⟩], [1], 1, 1, 2⟩

/-- Concrete filesystem of the C1 witness: the template document plus two
image files, while the template has exactly one placeholder picture. -/
def fsW1 : FS := ⟨[("t.pptx", .pptx prsW1), ("a.png", .image), ("b.png", .image)], []⟩

/-- Witness for C1: two images against one auto-detected position. -/
theorem C1_count_mismatch_fails_before_duplication_witness :
    copy_slide_replace_images fsW1 "t.pptx" 0 ["a.png", "b.png"] none true false none =
      .error (.valueError (.countMismatch 2 1)) := by
  have hget : get_all_image_positions fsW1 "t.pptx" 0 =
      .ok [position_info ⟨0, 0, 914400, 914400⟩] := by
    simp [get_all_image_positions, pathExists, findFile, fsW1, prsW1, loadPres,
      pictureGeoms, shapePic?, dummySlide]
  exact C1_count_mismatch_fails_before_duplication fsW1 "t.pptx" 0 ["a.png", "b.png"]
    none true false none prsW1 1 rfl (by decide)
    (Or.inr ⟨rfl, [position_info ⟨0, 0, 914400, 914400⟩], hget, by simp, rfl⟩) (by decide)

/-- C3: for every existing document and valid slide index,
get_all_image_positions returns one geometry per picture shape on the slide
(its result is a permutation of the pictures' inch geometries), sorted with
primary key the top coordinate rounded to the nearest 0.1 inch and
secondary key the left coordinate rounded to the nearest 0.1 inch, and it
returns the empty sequence (never an error) when the slide has no
pictures. -/
theorem C3_get_all_positions_reading_order (fs : FS) (ppt_path : String) (i : ℤ)
    (prs : Pres) (hppt : findFile fs.files ppt_path = some (.pptx prs))
    (h0 : 0 ≤ i) (hl : i < (prs.slides.length : ℤ)) :
    ∃ l, get_all_image_positions fs ppt_path i = .ok l ∧
      l.Perm ((pictureGeoms (prs.slides.getD i.toNat dummySlide).shapes).map position_info) ∧
      l.Pairwise posLe ∧
      (pictureGeoms (prs.slides.getD i.toNat dummySlide).shapes = [] → l = []) := by
  have hex : pathExists fs ppt_path = true := by simp [pathExists, hppt]
  have hload : loadPres fs ppt_path = .ok prs := by simp [loadPres, hppt]
  have hidx : ¬(i < 0 ∨ (prs.slides.length : ℤ) ≤ i) := by omega
  refine ⟨((pictureGeoms (prs.slides.getD i.toNat dummySlide).shapes).map
            position_info).mergeSort posLeB, ?_, ?_, ?_, ?_⟩
  · simp [get_all_image_positions, hex, hload, hidx]
  · exact List.mergeSort_perm _ posLeB
  · have h := @List.sorted_mergeSort Geometry posLeB posLeB_trans posLeB_total
      ((pictureGeoms (prs.slides.getD i.toNat dummySlide).shapes).map position_info)
    exact h.imp fun hab => of_decide_eq_true hab
  · intro hnil
    rw [hnil]
    simp

/-- Witness for C3 on a concrete one-slide document with one picture. -/
theorem C3_get_all_positions_reading_order_witness :
    ∃ l, get_all_image_positions
        ⟨[("s.pptx", .pptx ⟨[⟨1, ⟨0, []⟩, [.picture ⟨10, 20, 30, 40⟩ none none, Shape.other]⟩],
            [1], 1, 1, 2⟩)], []⟩ "s.pptx" 0 = .ok l ∧
      l.Perm ((pictureGeoms ((⟨[⟨1, ⟨0, []⟩, [.picture ⟨10, 20, 30, 40⟩ none none, Shape.other]⟩],
          [1], 1, 1, 2⟩ : Pres).slides.getD (0 : ℤ).toNat dummySlide).shapes).map
          position_info) ∧
      l.Pairwise posLe ∧
      (pictureGeoms ((⟨[⟨1, ⟨0, []⟩, [.picture ⟨10, 20, 30, 40⟩ none none, Shape.other]⟩],
          [1], 1, 1, 2⟩ : Pres).slides.getD (0 : ℤ).toNat dummySlide).shapes = [] →
        l = []) :=
  C3_get_all_positions_reading_order _ "s.pptx" 0
    ⟨[⟨1, ⟨0, []⟩, [.picture ⟨10, 20, 30, 40⟩ none none, Shape.other]⟩], [1], 1, 1, 2⟩
    rfl (by norm_num) (by norm_num)

/-- One stored coordinate is recovered to within one EMU by the inverse
conversion. -/
theorem emu_roundtrip_close (x : ℚ) :
    |(Inches x : ℚ) / EMUS_PER_INCH - x| < 1 / EMUS_PER_INCH := by
  have h := abs_sub_pyInt (x * 914400)
  rw [abs_lt] at h ⊢
  unfold Inches EMUS_PER_INCH
  constructor <;> linarith [h.1, h.2]

/-- Converting a stored EMU coordinate to inches and back is exact. -/
theorem Inches_position_info_emu (e : ℤ) : Inches ((e : ℚ) / EMUS_PER_INCH) = e := by
  unfold Inches EMUS_PER_INCH
  rw [div_mul_cancel₀]
  · exact pyInt_intCast e
  · norm_num

/-- C9: inserting a picture at geometry G (inches) stores each coordinate
through the fixed 914400-EMU-per-inch conversion; reading the geometry back
through the conversion used by get_image_position recovers G to within one
stored unit (1/914400 inch) per coordinate; and re-inserting the read-back
geometry stores bit-identical EMU values, so one save/reload cycle reaches
a fixed point and there is no cumulative drift. -/
theorem C9_insert_read_roundtrip (s : Slide) (img : String) (g : Geometry) (sm : Bool)
    (hnp : pictureGeoms s.shapes = []) :
    pictureGeoms (addPictureWithMeta s img g sm).shapes = [inGeomToEmu g] ∧
    |(position_info (inGeomToEmu g)).left - g.left| < 1 / EMUS_PER_INCH ∧
    |(position_info (inGeomToEmu g)).top - g.top| < 1 / EMUS_PER_INCH ∧
    |(position_info (inGeomToEmu g)).width - g.width| < 1 / EMUS_PER_INCH ∧
    |(position_info (inGeomToEmu g)).height - g.height| < 1 / EMUS_PER_INCH ∧
    inGeomToEmu (position_info (inGeomToEmu g)) = inGeomToEmu g := by
  have hnp' : List.filterMap shapePic? s.shapes = [] := hnp
  refine ⟨?_, ?_, ?_, ?_, ?_, ?_⟩
  · cases sm <;>
      simp [addPictureWithMeta, pictureGeoms, shapePic?, List.filterMap_append, hnp']
  · exact emu_roundtrip_close g.left
  · exact emu_roundtrip_close g.top
  · exact emu_roundtrip_close g.width
  · exact emu_roundtrip_close g.height
  · simp only [inGeomToEmu, position_info, GeomEmu.mk.injEq]
    exact ⟨Inches_position_info_emu _, Inches_position_info_emu _,
           Inches_position_info_emu _, Inches_position_info_emu _⟩

/-- Witness for C9 at a concrete geometry whose coordinates are not exact
EMU multiples. -/
theorem C9_insert_read_roundtrip_witness :
    pictureGeoms (addPictureWithMeta dummySlide "i.png" ⟨1/7, 3/2, 1, 2⟩ true).shapes =
      [inGeomToEmu ⟨1/7, 3/2, 1, 2⟩] ∧
    |(position_info (inGeomToEmu ⟨1/7, 3/2, 1, 2⟩)).left - (1/7 : ℚ)| < 1 / EMUS_PER_INCH ∧
    |(position_info (inGeomToEmu ⟨1/7, 3/2, 1, 2⟩)).top - (3/2 : ℚ)| < 1 / EMUS_PER_INCH ∧
    |(position_info (inGeomToEmu ⟨1/7, 3/2, 1, 2⟩)).width - (1 : ℚ)| < 1 / EMUS_PER_INCH ∧
    |(position_info (inGeomToEmu ⟨1/7, 3/2, 1, 2⟩)).height - (2 : ℚ)| < 1 / EMUS_PER_INCH ∧
    inGeomToEmu (position_info (inGeomToEmu ⟨1/7, 3/2, 1, 2⟩)) = inGeomToEmu ⟨1/7, 3/2, 1, 2⟩ :=
  C9_insert_read_roundtrip dummySlide "i.png" ⟨1/7, 3/2, 1, 2⟩ true rfl

/-- C4 counterexample: two pictures whose top coordinates (0.14 and 0.16
inch) differ by 0.02 inch — less than 0.1 — but round to different tenths
(0.1 and 0.2), so the code keeps them in separate rows and returns the
picture with the larger left coordinate (5 inches) before the one at
1 inch: the output is not ordered left-to-right, contradicting the claim
at this input. -/
theorem C4_counterexample :
    get_all_image_positions
        ⟨[("t.pptx", .pptx ⟨[⟨1, ⟨0, []⟩,
            [.picture ⟨4572000, 128016, 914400, 914400⟩ none none,
             .picture ⟨914400, 146304, 914400, 914400⟩ none none]⟩], [1],
            12192000, 6858000, 2⟩)], []⟩ "t.pptx" 0 =
      .ok [⟨5, 14/100, 1, 1⟩, ⟨1, 16/100, 1, 1⟩] ∧
    |(14/100 : ℚ) - 16/100| < 1/10 ∧ ((5 : ℚ) ≠ 1) ∧ ((1 : ℚ) < 5) := by
  refine ⟨?_, ?_, by norm_num, by norm_num⟩
  · have hA : position_info ⟨4572000, 128016, 914400, 914400⟩ =
        (⟨5, 14/100, 1, 1⟩ : Geometry) := by
      simp only [position_info, EMUS_PER_INCH, Geometry.mk.injEq]
      norm_num
    have hB : position_info ⟨914400, 146304, 914400, 914400⟩ =
        (⟨1, 16/100, 1, 1⟩ : Geometry) := by
      simp only [position_info, EMUS_PER_INCH, Geometry.mk.injEq]
      norm_num
    have hle : posLeB (⟨5, 14/100, 1, 1⟩ : Geometry) ⟨1, 16/100, 1, 1⟩ = true := by
      apply decide_eq_true
      left
      show roundTenth (14/100) < roundTenth (16/100)
      norm_num [roundTenth, pyRound]
    have hmain : get_all_image_positions
        ⟨[("t.pptx", .pptx ⟨[⟨1, ⟨0, []⟩,
            [.picture ⟨4572000, 128016, 914400, 914400⟩ none none,
             .picture ⟨914400, 146304, 914400, 914400⟩ none none]⟩], [1],
            12192000, 6858000, 2⟩)], []⟩ "t.pptx" 0 =
        .ok (List.mergeSort [(⟨5, 14/100, 1, 1⟩ : Geometry), ⟨1, 16/100, 1, 1⟩] posLeB) := by
      simp [get_all_image_positions, pathExists, findFile, loadPres, pictureGeoms,
        shapePic?, dummySlide, hA, hB]
    rw [hmain, mergeSort_pair, if_pos hle]
  · rw [show (14/100 : ℚ) - 16/100 = -(1/50) by norm_num, abs_neg,
       abs_of_nonneg (by norm_num : (0:ℚ) ≤ 1/50)]
    norm_num

/-- C4 (amended): for a slide whose pictures are, in shape-tree order, the
two geometries a and b, whose top coordinates round to the same tenth of an
inch, and whose left coordinates round to different tenths,
get_all_image_positions orders the two geometries left-to-right by rounded
left coordinate, whichever order they appear in on the slide.  (Rounding
the tops to the same tenth — not merely differing by less than 0.1 inch —
is what places two pictures in the same visual row.) -/
theorem C4_same_row_left_to_right (fs : FS) (ppt_path : String) (i : ℤ)
    (prs : Pres) (a b : GeomEmu)
    (hppt : findFile fs.files ppt_path = some (.pptx prs))
    (h0 : 0 ≤ i) (hl : i < (prs.slides.length : ℤ))
    (hpics : pictureGeoms (prs.slides.getD i.toNat dummySlide).shapes = [a, b])
    (htop : roundTenth (position_info a).top = roundTenth (position_info b).top)
    (hleft : roundTenth (position_info a).left ≠ roundTenth (position_info b).left) :
    get_all_image_positions fs ppt_path i =
      .ok (if roundTenth (position_info a).left < roundTenth (position_info b).left
           then [position_info a, position_info b]
           else [position_info b, position_info a]) := by
  have hex : pathExists fs ppt_path = true := by simp [pathExists, hppt]
  have hload : loadPres fs ppt_path = .ok prs := by simp [loadPres, hppt]
  have hidx : ¬(i < 0 ∨ (prs.slides.length : ℤ) ≤ i) := by omega
  rw [List.getD_eq_getElem?_getD] at hpics
  have hmain : get_all_image_positions fs ppt_path i =
      .ok (List.mergeSort [position_info a, position_info b] posLeB) := by
    simp [get_all_image_positions, hex, hload, hidx, hpics]
  rw [hmain, mergeSort_pair]
  rcases lt_or_gt_of_ne hleft with h | h
  · have hb : posLeB (position_info a) (position_info b) = true :=
      decide_eq_true (Or.inr ⟨htop, le_of_lt h⟩)
    simp [hb, h]
  · have hb : posLeB (position_info a) (position_info b) = false := by
      apply decide_eq_false
      rintro (hlt | ⟨heq, hle⟩)
      · exact absurd (htop ▸ hlt) (lt_irrefl _)
      · exact absurd hle (not_le_of_lt h)
    have hnot : ¬(roundTenth (position_info a).left < roundTenth (position_info b).left) :=
      not_lt_of_gt h
    simp [hb, hnot]

/-- Concrete presentation of the C4 witness: two pictures in one visual
row (tops 0.14 and 0.12 inch both round to 0.1), the right-hand picture
first in tree order. -/
def prsW4 : Pres :=
  ⟨[⟨1, ⟨0, []⟩, [.picture ⟨4572000, 128016, 914400, 914400⟩ none none,
            .picture ⟨914400, 109728, 914400, 914400⟩ none none]⟩], [1],
    12192000, 6858000, 2⟩

/-- Concrete filesystem of the C4 witness. -/
def fsW4 : FS := ⟨[("r.pptx", .pptx prsW4)], []⟩

/-- Witness for the amended C4: the two same-row pictures come back
left-to-right although the slide stores the right-hand one first. -/
theorem C4_same_row_left_to_right_witness :
    get_all_image_positions fsW4 "r.pptx" 0 =
      .ok (if roundTenth (position_info ⟨4572000, 128016, 914400, 914400⟩).left <
              roundTenth (position_info ⟨914400, 109728, 914400, 914400⟩).left
           then [position_info ⟨4572000, 128016, 914400, 914400⟩,
                 position_info ⟨914400, 109728, 914400, 914400⟩]
           else [position_info ⟨914400, 109728, 914400, 914400⟩,
                 position_info ⟨4572000, 128016, 914400, 914400⟩]) :=
  C4_same_row_left_to_right fsW4 "r.pptx" 0 prsW4
    ⟨4572000, 128016, 914400, 914400⟩ ⟨914400, 109728, 914400, 914400⟩
    rfl (by norm_num) (by norm_num [prsW4]) rfl
    (by norm_num [position_info, EMUS_PER_INCH, roundTenth, pyRound])
    (by norm_num [position_info, EMUS_PER_INCH, roundTenth, pyRound])

/-- Adding the visible text label does not change the picture shapes of a
slide. -/
theorem pictureGeoms_textlabel (s : Slide) (paths : List String) (w h : ℚ)
    (bd : Option String) :
    pictureGeoms (_add_text_label s paths w h bd).shapes = pictureGeoms s.shapes := by
  unfold _add_text_label
  simp [pictureGeoms, List.filterMap_append, shapePic?]

/-- C10: when positions are explicitly supplied, copy_slide_replace_images
never consults the template placeholders: for every template slide with
zero pictures and a supplied position list matching the image list in
length, the call succeeds — returning the index of the appended slide —
and the new slide carries exactly the pictures at the supplied positions in
input order; the no-placeholder ValueError is reachable only on the
auto-detection path. -/
theorem C10_supplied_positions_skip_placeholder_check (fs : FS) (ppt_path : String)
    (idx : ℤ) (imgs : List String) (ps : List Geometry) (sm al : Bool)
    (bd : Option String) (prs : Pres)
    (hppt : findFile fs.files ppt_path = some (.pptx prs))
    (himgs : ∀ p ∈ imgs, (findFile fs.files p).isSome)
    (hlen : imgs.length = ps.length)
    (h0 : 0 ≤ idx) (hl : idx < (prs.slides.length : ℤ))
    (_hnopic : pictureGeoms (prs.slides.getD idx.toNat dummySlide).shapes = []) :
    ∃ fs', copy_slide_replace_images fs ppt_path idx imgs (some ps) sm al bd =
        .ok (fs', (prs.slides.length : ℤ)) ∧
      ∃ prs', findFile fs'.files ppt_path = some (.pptx prs') ∧
        ∃ last, prs'.slides.getLast? = some last ∧
          pictureGeoms last.shapes = ps.map inGeomToEmu := by
  have hex : pathExists fs ppt_path = true := by simp [pathExists, hppt]
  have hmiss : firstMissing fs.files imgs = none := firstMissing_eq_none _ _ himgs
  have hload : loadPres fs ppt_path = .ok prs := by simp [loadPres, hppt]
  have hne : ¬(imgs.length ≠ ps.length) := by simp [hlen]
  have hidx : ¬(idx < 0 ∨ (prs.slides.length : ℤ) ≤ idx) := by omega
  have hdup : duplicate_slide prs idx =
      .ok { prs with
            slides := prs.slides ++
              [⟨prs.nextRId, (prs.slides.getD idx.toNat dummySlide).layout,
                (prs.slides.getD idx.toNat dummySlide).layout.placeholders ++
                  (prs.slides.getD idx.toNat dummySlide).shapes⟩],
            rels := prs.rels ++ [prs.nextRId],
            nextRId := prs.nextRId + 1 } := by
    unfold duplicate_slide
    rw [if_neg hidx]
  set s4 : Slide := (if al = true then
      _add_text_label ((imgs.zip ps).foldl (fun sl ip => addPictureWithMeta sl ip.1 ip.2 sm)
          (remove_all_text_from_slide (remove_pictures_from_slide
            ⟨prs.nextRId, (prs.slides.getD idx.toNat dummySlide).layout,
             (prs.slides.getD idx.toNat dummySlide).layout.placeholders ++
               (prs.slides.getD idx.toNat dummySlide).shapes⟩).1).1)
        imgs ((prs.slideWidth : ℚ) / EMUS_PER_INCH) ((prs.slideHeight : ℚ) / EMUS_PER_INCH) bd
    else
      (imgs.zip ps).foldl (fun sl ip => addPictureWithMeta sl ip.1 ip.2 sm)
        (remove_all_text_from_slide (remove_pictures_from_slide
          ⟨prs.nextRId, (prs.slides.getD idx.toNat dummySlide).layout,
           (prs.slides.getD idx.toNat dummySlide).layout.placeholders ++
             (prs.slides.getD idx.toNat dummySlide).shapes⟩).1).1) with hs4
  refine ⟨fs.save ppt_path { prs with
      slides := prs.slides ++ [s4],
      rels := prs.rels ++ [prs.nextRId],
      nextRId := prs.nextRId + 1 }, ?_,
    { prs with
      slides := prs.slides ++ [s4],
      rels := prs.rels ++ [prs.nextRId],
      nextRId := prs.nextRId + 1 },
    findFile_updateFile_self _ _ _, s4, List.getLast?_concat _, ?_⟩
  · rw [hs4]
    simp only [copy_slide_replace_images, hex, Bool.not_true, Bool.false_eq_true,
      if_false, hmiss, hload, if_neg hne, hdup, List.getLastD_concat,
      List.dropLast_concat, List.length_append, List.length_cons, List.length_nil,
      Nat.cast_add, Nat.cast_one, Nat.cast_zero, zero_add, add_sub_cancel_right]
  · have h1 : pictureGeoms ((remove_pictures_from_slide
        ⟨prs.nextRId, (prs.slides.getD idx.toNat dummySlide).layout,
          (prs.slides.getD idx.toNat dummySlide).layout.placeholders ++
            (prs.slides.getD idx.toNat dummySlide).shapes⟩).1).shapes = [] :=
      pictureGeoms_remove_pictures _
    have h2 : pictureGeoms ((remove_all_text_from_slide (remove_pictures_from_slide
        ⟨prs.nextRId, (prs.slides.getD idx.toNat dummySlide).layout,
          (prs.slides.getD idx.toNat dummySlide).layout.placeholders ++
            (prs.slides.getD idx.toNat dummySlide).shapes⟩).1).1).shapes = [] :=
      pictureGeoms_filter_of_nil _ _ h1
    have h3 : ∀ s2 : Slide, pictureGeoms s2.shapes = [] →
        pictureGeoms ((imgs.zip ps).foldl
          (fun sl ip => addPictureWithMeta sl ip.1 ip.2 sm) s2).shapes =
          ps.map inGeomToEmu := by
      intro s2 hs2
      rw [pictureGeoms_foldl_add, hs2, List.nil_append]
      rw [show (fun ip : String × Geometry => inGeomToEmu ip.2) =
        inGeomToEmu ∘ Prod.snd from rfl]
      rw [← List.map_map, List.map_snd_zip _ _ (le_of_eq hlen.symm)]
    rw [hs4]
    cases al
    · rw [if_neg Bool.false_ne_true]
      exact h3 _ h2
    · rw [if_pos rfl, pictureGeoms_textlabel]
      exact h3 _ h2

/-- Concrete template presentation of the C10 witness: the template slide
has zero pictures. -/
def prsW10 : Pres := ⟨[⟨1, ⟨0, []⟩, [Shape.other]⟩], [1], 9144000, 6858000, 2⟩

/-- Concrete filesystem of the C10 witness. -/
def fsW10 : FS := ⟨[("t2.pptx", .pptx prsW10), ("x.png", .image)], []⟩

/-- Witness for C10: one supplied position against a pictureless template
succeeds and inserts the image there. -/
theorem C10_supplied_positions_skip_placeholder_check_witness :
    ∃ fs', copy_slide_replace_images fsW10 "t2.pptx" 0 ["x.png"] (some [⟨1, 2, 3, 4⟩])
        true true none = .ok (fs', (prsW10.slides.length : ℤ)) ∧
      ∃ prs', findFile fs'.files "t2.pptx" = some (.pptx prs') ∧
        ∃ last, prs'.slides.getLast? = some last ∧
          pictureGeoms last.shapes = ([⟨1, 2, 3, 4⟩] : List Geometry).map inGeomToEmu :=
  C10_supplied_positions_skip_placeholder_check fsW10 "t2.pptx" 0 ["x.png"] [⟨1, 2, 3, 4⟩]
    true true none prsW10 rfl (by decide) rfl (by norm_num) (by norm_num [prsW10]) rfl

/-- Concrete slide of the C5 scenario: one picture at one inch square and
one free-floating textbox label. -/
def prsC5 : Pres :=
  ⟨[⟨1, ⟨0, []⟩, [.picture ⟨914400, 914400, 914400, 914400⟩ none none,
            .textShape false ⟨0, 0, 914400, 914400⟩ "old"]⟩], [1], 9144000, 6858000, 2⟩

/-- Concrete filesystem of the C5 scenario. -/
def fsC5 : FS := ⟨[("p.pptx", .pptx prsC5), ("new.png", .image)], []⟩

/-- The document the code actually persists in the C5 scenario: the old
picture is gone and the new picture and new label are present, but the old
free textbox label is still on the slide — the label-removal loop never
removes anything (see hasattrPlaceholderFormat). -/
def prsC5after : Pres :=
  ⟨[⟨1, ⟨0, []⟩, [.textShape false ⟨0, 0, 914400, 914400⟩ "old",
            .picture ⟨914400, 914400, 914400, 914400⟩ (some "new.png")
              (some (basename "new.png")),
            .textShape false ⟨4297680, 6373368, 4572000, 210312⟩
              (label_text ["new.png"] none)]⟩], [1], 9144000, 6858000, 2⟩

/-- C5: evaluation of replace_image_on_existing_slide at the claim's
scenario (one picture at geometry G, one free textbox label, add_label
set).  The persisted slide keeps the pre-existing label as its first shape
— the removal step is a no-op because hasattr(shape, "placeholder_format")
never returns False under python-pptx — so the slide ends with two label
shapes and the claim's "removes the old label" fails, although the new
picture does land at G and exactly one picture remains. -/
theorem C5_label_removal_loop_is_noop :
    replace_image_on_existing_slide fsC5 "p.pptx" 0 "new.png" true true =
      .ok ⟨[("p.pptx", .pptx prsC5after), ("new.png", .image)], []⟩ := by
  have hpos : get_image_position fsC5 "p.pptx" 0 0 = .ok ⟨1, 1, 1, 1⟩ := by
    simp [get_image_position, pathExists, findFile, fsC5, prsC5, loadPres, pictureGeoms,
      shapePic?, dummySlide, position_info, EMUS_PER_INCH, Geometry.mk.injEq]
  have hex1 : pathExists fsC5 "p.pptx" = true := by simp [pathExists, findFile, fsC5]
  have hex2 : pathExists fsC5 "new.png" = true := by simp [pathExists, findFile, fsC5]
  have hload : loadPres fsC5 "p.pptx" = .ok prsC5 := by simp [loadPres, findFile, fsC5]
  have hidx : ¬((0 : ℤ) < 0 ∨ (prsC5.slides.length : ℤ) ≤ 0) := by norm_num [prsC5]
  simp only [replace_image_on_existing_slide, hex1, hex2, Bool.not_true,
    Bool.false_eq_true, if_false, hload, if_neg hidx, hpos]
  norm_num [prsC5, prsC5after, fsC5, remove_pictures_from_slide, isPictureShape,
    removeTextboxLabels, removeTextboxStep, hasattrPlaceholderFormat, hasTextFrame,
    addPictureWithMeta, inGeomToEmu, Inches, pyInt, _add_text_label, LABEL_MARGIN,
    LABEL_WIDTH, EMUS_PER_INCH, FS.save, updateFile, dummySlide, List.foldl,
    List.filter, List.set]
